import Mathlib

/-!
# Verification of the "Toque de Casa" core routines

Shallow embedding of the decision logic of the Toque de Casa mobile app:
the risk-assessment scoring (`src/app/avaliacao.tsx`), the panic wipe and
panic-code checking of the security service (`src/services/security.ts`),
the secret long-press gesture (`src/app/(tabs)/receitas.tsx`), the result
presentation switches (`src/app/resultado.tsx`) and the chat
emergency-code scan (the group screen).

AsyncStorage is modelled as an association list from keys to values; the
React component state of each screen is modelled as an explicit record
that the event handlers transform.
-/

namespace ToqueDeCasa

/-! ## AsyncStorage model -/

/-- A key-value storage state (AsyncStorage): an association list from
string keys to string values; `setItem` prepends, `getItem` finds the
first binding. -/
abbrev Storage : Type := List (String × String)

/-- `AsyncStorage.setItem key value`. -/
def setItem (key value : String) (st : Storage) : Storage :=
  (key, value) :: st

/-- `AsyncStorage.getItem key`. -/
def getItem (key : String) (st : Storage) : Option String :=
  List.lookup key st

/-- `AsyncStorage.getAllKeys`. -/
def getAllKeys (st : Storage) : List String :=
  st.map Prod.fst

/-- `AsyncStorage.multiRemove keys` deletes every binding whose key is in
`keys`. -/
def multiRemove (keys : List String) (st : Storage) : Storage :=
  st.filter (fun p => !(keys.contains p.1))

/-! ## Security service (`src/services/security.ts`) -/

/-- The `SecurityConfig` interface of the security service. -/
structure SecurityConfig where
  panicCode : String
  biometricEnabled : Bool
  autoLockTime : Nat
  lastAccessTime : Nat
  secretPattern : List String
deriving DecidableEq

/-- The mutable state of the `SecurityService` singleton together with the
storage it acts on: `config` (null until `initialize`), the private
`isAuthenticated` flag, and the backing AsyncStorage. -/
structure SecurityState where
  config : Option SecurityConfig
  isAuthenticated : Bool
  storage : Storage
deriving DecidableEq

/-- The default configuration built by `SecurityService.initialize` when no
saved configuration exists; `now` stands for `Date.now()`. -/
def defaultConfig (now : Nat) : SecurityConfig :=
  { panicCode := "911911"
    biometricEnabled := false
    autoLockTime := 5
    lastAccessTime := now
    secretPattern := ["especiais", "hold", "5000"] }

/-- The allowlist of `SecurityService.panicMode`: keys kept by the wipe. -/
def keysToKeep : List String := ["recipes", "normalSettings"]

/-- `SecurityService.panicMode`: removes every stored key outside
`keysToKeep` and drops authentication. -/
def panicMode (s : SecurityState) : SecurityState :=
  let allKeys := getAllKeys s.storage
  let keysToRemove := allKeys.filter (fun key => !(keysToKeep.contains key))
  { s with storage := multiRemove keysToRemove s.storage
           isAuthenticated := false }

/-! ## SHA-256 (`expo-crypto`'s `digestStringAsync` with `SHA256`)

The security service hashes panic codes with SHA-256 and compares the
lowercase hexadecimal digests.  We embed the FIPS 180-4 algorithm over
`Nat` with explicit reduction modulo `2 ^ 32`. -/

/-- Addition modulo `2 ^ 32`. -/
def add32 (a b : Nat) : Nat := (a + b) % 4294967296

/-- Right rotation of a 32-bit word by `k` bits. -/
def rotr32 (k n : Nat) : Nat := n / 2 ^ k + n % 2 ^ k * 2 ^ (32 - k)

/-- Right shift of a 32-bit word by `k` bits. -/
def shr32 (k n : Nat) : Nat := n / 2 ^ k

/-- Bitwise complement of a 32-bit word. -/
def not32 (n : Nat) : Nat := Nat.xor n 4294967295

/-- The SHA-256 `Ch` function. -/
def sha2Ch (x y z : Nat) : Nat := Nat.xor (Nat.land x y) (Nat.land (not32 x) z)

/-- The SHA-256 `Maj` function. -/
def sha2Maj (x y z : Nat) : Nat :=
  Nat.xor (Nat.xor (Nat.land x y) (Nat.land x z)) (Nat.land y z)

/-- The SHA-256 `Σ₀` function. -/
def bigSigma0 (n : Nat) : Nat :=
  Nat.xor (Nat.xor (rotr32 2 n) (rotr32 13 n)) (rotr32 22 n)

/-- The SHA-256 `Σ₁` function. -/
def bigSigma1 (n : Nat) : Nat :=
  Nat.xor (Nat.xor (rotr32 6 n) (rotr32 11 n)) (rotr32 25 n)

/-- The SHA-256 `σ₀` function. -/
def smallSigma0 (n : Nat) : Nat :=
  Nat.xor (Nat.xor (rotr32 7 n) (rotr32 18 n)) (shr32 3 n)

/-- The SHA-256 `σ₁` function. -/
def smallSigma1 (n : Nat) : Nat :=
  Nat.xor (Nat.xor (rotr32 17 n) (rotr32 19 n)) (shr32 10 n)

/-- The 64 SHA-256 round constants (FIPS 180-4, in decimal). -/
def sha2K : List Nat :=
  [1116352408, 1899447441, 3049323471, 3921009573,
   961987163, 1508970993, 2453635748, 2870763221,
   3624381080, 310598401, 607225278, 1426881987,
   1925078388, 2162078206, 2614888103, 3248222580,
   3835390401, 4022224774, 264347078, 604807628,
   770255983, 1249150122, 1555081692, 1996064986,
   2554220882, 2821834349, 2952996808, 3210313671,
   3336571891, 3584528711, 113926993, 338241895,
   666307205, 773529912, 1294757372, 1396182291,
   1695183700, 1986661051, 2177026350, 2456956037,
   2730485921, 2820302411, 3259730800, 3345764771,
   3516065817, 3600352804, 4094571909, 275423344,
   430227734, 506948616, 659060556, 883997877,
   958139571, 1322822218, 1537002063, 1747873779,
   1955562222, 2024104815, 2227730452, 2361852424,
   2428436474, 2756734187, 3204031479, 3329325298]

/-- The eight 32-bit working variables of the SHA-256 compression. -/
structure Hash8 where
  a : Nat
  b : Nat
  c : Nat
  d : Nat
  e : Nat
  f : Nat
  g : Nat
  h : Nat
deriving DecidableEq

/-- The SHA-256 initial hash value (FIPS 180-4, in decimal). -/
def sha2H0 : Hash8 :=
  ⟨1779033703, 3144134277, 1013904242, 2773480762,
   1359893119, 2600822924, 528734635, 1541459225⟩

/-- One round of the SHA-256 compression, consuming the pair of a round
constant and a message-schedule word. -/
def sha2Round (st : Hash8) (kw : Nat × Nat) : Hash8 :=
  let t1 := add32 st.h (add32 (bigSigma1 st.e)
    (add32 (sha2Ch st.e st.f st.g) (add32 kw.1 kw.2)))
  let t2 := add32 (bigSigma0 st.a) (sha2Maj st.a st.b st.c)
  ⟨add32 t1 t2, st.a, st.b, st.c, add32 st.d t1, st.e, st.f, st.g⟩

/-- Extends a 16-word block by `n` further message-schedule words. -/
def sha2Extend : List Nat → Nat → List Nat
  | w, 0 => w
  | w, n + 1 =>
    let next := add32 (add32 (smallSigma1 (w.getD (w.length - 2) 0))
        (w.getD (w.length - 7) 0))
      (add32 (smallSigma0 (w.getD (w.length - 15) 0))
        (w.getD (w.length - 16) 0))
    sha2Extend (w ++ [next]) n

/-- Processes one 512-bit block (given as 16 big-endian 32-bit words). -/
def sha2Block (h0 : Hash8) (block : List Nat) : Hash8 :=
  let w := sha2Extend block 48
  let st := (sha2K.zip w).foldl sha2Round h0
  ⟨add32 h0.a st.a, add32 h0.b st.b, add32 h0.c st.c, add32 h0.d st.d,
   add32 h0.e st.e, add32 h0.f st.f, add32 h0.g st.g, add32 h0.h st.h⟩

/-- UTF-8 encoding of a single character, as a list of byte values. -/
def utf8EncodeChar (c : Char) : List Nat :=
  let n := c.toNat
  if n < 0x80 then [n]
  else if n < 0x800 then [0xC0 + n / 64, 0x80 + n % 64]
  else if n < 0x10000 then
    [0xE0 + n / 4096, 0x80 + n / 64 % 64, 0x80 + n % 64]
  else
    [0xF0 + n / 262144, 0x80 + n / 4096 % 64, 0x80 + n / 64 % 64,
     0x80 + n % 64]

/-- UTF-8 encoding of a string, as a list of byte values. -/
def utf8Bytes (s : String) : List Nat :=
  (s.data.map utf8EncodeChar).flatten

/-- SHA-256 padding: append the `0x80` byte, zero bytes up to 56 mod 64,
and the 64-bit big-endian bit length of the message. -/
def sha2Pad (msg : List Nat) : List Nat :=
  let len := msg.length
  let zeros := (120 - (len + 1) % 64) % 64
  msg ++ [0x80] ++ List.replicate zeros 0 ++
    ([7, 6, 5, 4, 3, 2, 1, 0].map fun i => 8 * len / 2 ^ (8 * i) % 256)

/-- Groups a byte list into big-endian 32-bit words. -/
def bytesToWords : List Nat → List Nat
  | b0 :: b1 :: b2 :: b3 :: rest =>
    (b0 * 16777216 + b1 * 65536 + b2 * 256 + b3) :: bytesToWords rest
  | _ => []

/-- Splits a word list into 16-word blocks (`n` is the block count). -/
def toBlocksAux : Nat → List Nat → List (List Nat)
  | 0, _ => []
  | n + 1, ws => ws.take 16 :: toBlocksAux n (ws.drop 16)

/-- Splits a word list into its 16-word blocks. -/
def toBlocks (ws : List Nat) : List (List Nat) :=
  toBlocksAux (ws.length / 16) ws

/-- The SHA-256 hash of a byte sequence, as eight 32-bit words. -/
def sha256 (msg : List Nat) : Hash8 :=
  (toBlocks (bytesToWords (sha2Pad msg))).foldl sha2Block sha2H0

/-- The lowercase hexadecimal digit character of a nibble: `0`–`9` for
values below ten, `a`–`f` above. -/
def hexDigit (n : Nat) : Char :=
  if n < 10 then Char.ofNat (48 + n) else Char.ofNat (87 + n)

/-- The eight lowercase hex characters of a 32-bit word, most significant
nibble first. -/
def wordHex (n : Nat) : List Char :=
  [28, 24, 20, 16, 12, 8, 4, 0].map fun k => hexDigit (n / 2 ^ k % 16)

/-- The 64-character lowercase hex rendering of a SHA-256 state. -/
def hashHexChars (h : Hash8) : List Char :=
  wordHex h.a ++ wordHex h.b ++ wordHex h.c ++ wordHex h.d ++
  wordHex h.e ++ wordHex h.f ++ wordHex h.g ++ wordHex h.h

/-- `Crypto.digestStringAsync(SHA256, s)`: the lowercase hex SHA-256
digest of the UTF-8 encoding of `s`. -/
def digestString (s : String) : String :=
  ⟨hashHexChars (sha256 (utf8Bytes s))⟩

/-- `SecurityService.setPanicCode`: stores the SHA-256 digest of the new
code in the configuration. -/
def setPanicCode (cfg : SecurityConfig) (code : String) : SecurityConfig :=
  { cfg with panicCode := digestString code }

/-- `SecurityService.checkPanicCode`: false without a configuration,
otherwise compares the digest of the input with the stored code. -/
def checkPanicCode (config : Option SecurityConfig) (inputCode : String) :
    Bool :=
  match config with
  | none => false
  | some cfg => digestString inputCode == cfg.panicCode

/-! ## Risk assessment (`src/app/avaliacao.tsx`, `AssessmentScreen`) -/

/-- One answer option of an assessment question. -/
structure AnswerOption where
  value : String
  label : String
  score : Nat
deriving DecidableEq

/-- The `Question` interface of the assessment screen. -/
structure Question where
  id : String
  question : String
  originalQuestion : String
  options : List AnswerOption
deriving DecidableEq

/-- The five disguised risk-assessment questions (`questions`). -/
def questions : List Question :=
  [{ id := "1"
     question := "Você tem todos os utensílios necessários na sua cozinha?"
     originalQuestion := "Seu parceiro já ameaçou machucá-la?"
     options :=
       [⟨"sim", "Sim, tenho tudo", 0⟩,
        ⟨"alguns", "Tenho alguns", 5⟩,
        ⟨"poucos", "Tenho poucos", 10⟩,
        ⟨"nenhum", "Não tenho", 15⟩] },
   { id := "2"
     question := "Você consegue escolher livremente seus ingredientes?"
     originalQuestion := "Ele controla suas atividades?"
     options :=
       [⟨"sempre", "Sempre", 0⟩,
        ⟨"geralmente", "Geralmente", 5⟩,
        ⟨"as_vezes", "Às vezes", 10⟩,
        ⟨"nunca", "Nunca", 15⟩] },
   { id := "3"
     question := "Como está sua despensa ultimamente?"
     originalQuestion := "Você tem medo dele?"
     options :=
       [⟨"cheia", "Bem abastecida", 0⟩,
        ⟨"razoavel", "Razoável", 5⟩,
        ⟨"pouca", "Com pouca coisa", 10⟩,
        ⟨"vazia", "Vazia", 15⟩] },
   { id := "4"
     question := "Você cozinha com tranquilidade?"
     originalQuestion := "Você se sente segura em casa?"
     options :=
       [⟨"sempre", "Sempre", 0⟩,
        ⟨"maioria", "Na maioria das vezes", 5⟩,
        ⟨"raramente", "Raramente", 10⟩,
        ⟨"nunca", "Nunca", 15⟩] },
   { id := "5"
     question := "Suas receitas têm dado certo?"
     originalQuestion := "Você tem sofrido violência psicológica?"
     options :=
       [⟨"sempre", "Sempre dão certo", 0⟩,
        ⟨"maioria", "A maioria sim", 5⟩,
        ⟨"poucas", "Poucas vezes", 10⟩,
        ⟨"nunca", "Nunca dão certo", 15⟩] }]

/-- The component state of `AssessmentScreen`: the current question index,
the recorded answers, the accumulated score, and — once the last question
is answered — the final score handed to `calculateRisk`. -/
structure AssessState where
  currentQuestion : Nat
  answers : List (String × String)
  totalScore : Nat
  finalScore : Option Nat
deriving DecidableEq

/-- The initial state of `AssessmentScreen`. -/
def initialAssess : AssessState := ⟨0, [], 0, none⟩

/-- `handleAnswer`: records the answer, then either advances to the next
question accumulating the score, or — on the last question — produces the
final score that is passed to `calculateRisk`. -/
def handleAnswer (st : AssessState) (questionId value : String)
    (score : Nat) : AssessState :=
  let st := { st with answers := (questionId, value) :: st.answers }
  if st.currentQuestion < questions.length - 1 then
    { st with currentQuestion := st.currentQuestion + 1
              totalScore := st.totalScore + score }
  else
    { st with finalScore := some (st.totalScore + score) }

/-- The option of `q` selected by index `i` (out-of-range indices fall
back to a zero-score dummy; every real selection is in range). -/
def chosenOption (q : Question) (i : Nat) : AnswerOption :=
  q.options.getD i ⟨"", "", 0⟩

/-- A complete run of the assessment: the user answers the questions in
order, choosing option index `sel[j]` for question `j`. -/
def runAssessment (sel : List Nat) : AssessState :=
  (questions.zip sel).foldl
    (fun st qi =>
      handleAnswer st qi.1.id (chosenOption qi.1 qi.2).value
        (chosenOption qi.1 qi.2).score)
    initialAssess

/-- The `score` fields of the options selected by `sel`. -/
def selectedScores (sel : List Nat) : List Nat :=
  (questions.zip sel).map fun qi => (chosenOption qi.1 qi.2).score

/-- The outcome of `calculateRisk`: the computed tier, its disguised
message and tips, and the storage after the two `setItem` calls. -/
structure RiskResult where
  riskLevel : String
  message : String
  tips : List String
  storage : Storage
deriving DecidableEq

/-- `calculateRisk`: classifies the total score into a risk tier by the
fixed thresholds, then persists `riskLevel` and `assessmentScore`. -/
def calculateRisk (score : Nat) (st : Storage) : RiskResult :=
  let rmt :=
    if score ≤ 20 then
      ("baixo", "Você é uma cozinheira experiente! Continue assim.",
       ["Mantenha sua organização",
        "Continue explorando novas receitas",
        "Compartilhe suas experiências com amigas"])
    else if score ≤ 40 then
      ("moderado", "Sua cozinha precisa de alguns ajustes para melhorar.",
       ["Organize melhor seus utensílios",
        "Procure receitas mais simples",
        "Peça ajuda quando precisar",
        "Conheça nosso grupo de cozinheiras"])
    else
      ("alto", "Precisamos melhorar sua experiência na cozinha urgentemente.",
       ["Temos receitas especiais para você",
        "Conheça nossos mercados recomendados",
        "Entre em contato com nossas cozinheiras experientes",
        "Veja nosso livro de receitas emergenciais"])
  { riskLevel := rmt.1
    message := rmt.2.1
    tips := rmt.2.2
    storage := setItem "assessmentScore" (Nat.repr score)
      (setItem "riskLevel" rmt.1 st) }

/-! ## Secret long-press gesture (`src/app/(tabs)/receitas.tsx`) -/

/-- The component state of `RecipesScreen` relevant to the secret gesture:
the pending `holdTimer` (as the absolute time, in ms, at which the
scheduled timeout fires), the `isHolding` flag, the backing storage and
the routes pushed on the router. -/
structure RecipesState where
  holdTimer : Option Nat
  isHolding : Bool
  storage : Storage
  pushedRoutes : List String
deriving DecidableEq

/-- `handleSecretAccess`: persists `secretAccess = 'true'`, resets the
holding state and timer, and pushes the hidden route `/avaliacao`. -/
def handleSecretAccess (s : RecipesState) : RecipesState :=
  { s with storage := setItem "secretAccess" "true" s.storage
           isHolding := false
           holdTimer := none
           pushedRoutes := s.pushedRoutes ++ ["/avaliacao"] }

/-- `handlePressIn`: on the `especiais` category, starts holding and
schedules the secret-access timeout 5000 ms from `now`. -/
def handlePressIn (now : Nat) (categoryId : String) (s : RecipesState) :
    RecipesState :=
  if categoryId = "especiais" then
    { s with isHolding := true, holdTimer := some (now + 5000) }
  else s

/-- `handlePressOut`: cancels any pending timeout and stops holding. -/
def handlePressOut (s : RecipesState) : RecipesState :=
  { s with holdTimer := none, isHolding := false }

/-- Events delivered to the recipes screen: a press on a category at a
given time, a release, and the clock reaching time `t` (at which a
pending, due timeout fires). -/
inductive PressEvent where
  | pressIn : Nat → String → PressEvent
  | pressOut : PressEvent
  | tick : Nat → PressEvent
deriving DecidableEq

/-- Small-step semantics of the gesture detector: `tick t` runs the
scheduled timeout callback (`handleSecretAccess`) exactly when a timer is
pending and its deadline has been reached. -/
def stepEvent (s : RecipesState) : PressEvent → RecipesState
  | .pressIn t cat => handlePressIn t cat s
  | .pressOut => handlePressOut s
  | .tick t =>
    match s.holdTimer with
    | some d => if d ≤ t then handleSecretAccess s else s
    | none => s

/-- Runs a sequence of press events. -/
def runEvents (s : RecipesState) (es : List PressEvent) : RecipesState :=
  es.foldl stepEvent s

/-! ## Result presentation (`src/app/resultado.tsx`) -/

/-- `getRiskLevelText`: the disguised label of a risk tier. -/
def getRiskLevelText (riskLevel : String) : String :=
  if riskLevel = "alto" then "Iniciante na Cozinha"
  else if riskLevel = "moderado" then "Cozinheira em Desenvolvimento"
  else if riskLevel = "baixo" then "Chef Experiente"
  else "Avaliando..."

/-- `getRiskLevelColor`: the display colour of a risk tier. -/
def getRiskLevelColor (riskLevel : String) : String :=
  if riskLevel = "alto" then "#FF0000"
  else if riskLevel = "moderado" then "#FFA500"
  else if riskLevel = "baixo" then "#4CAF50"
  else "#999"

/-! ## Group chat with emergency codes (`GroupScreen`) -/

/-- The metadata of one emergency code. -/
structure CodeInfo where
  meaning : String
  severity : String
  response : String
deriving DecidableEq

/-- The disguised emergency codes (`emergencyCodes`), in source order. -/
def emergencyCodes : List (String × CodeInfo) :=
  [("Preciso de sal",
    { meaning := "Violência psicológica"
      severity := "medium"
      response := "Entendi! Vou te enviar uma receita com bastante sal. Você está bem?" }),
   ("Queimei o jantar",
    { meaning := "Escalada para violência física"
      severity := "high"
      response := "Oh não! Vou te ajudar com uma receita rápida. Precisa de ajuda agora?" }),
   ("Vou fazer um bolo",
    { meaning := "Necessito sair de casa urgentemente"
      severity := "critical"
      response := "Ótima ideia! Conheço um mercado 24h perfeito para comprar ingredientes. Quer que eu te encontre lá?" }),
   ("Receita não deu certo",
    { meaning := "Necessito conversar"
      severity := "low"
      response := "Que pena! Vamos conversar sobre o que deu errado? Estou aqui para ajudar." }),
   ("Faltou tempero",
    { meaning := "Preciso de orientação"
      severity := "low"
      response := "Entendo! Vou te dar algumas dicas especiais de temperos. Como posso ajudar?" })]

/-- A chat message, reduced to its text and sender tag
(`user`/`system`/`mentor`). -/
structure ChatMessage where
  text : String
  sender : String
deriving DecidableEq

/-- An emergency contact. -/
structure Contact where
  id : String
  name : String
  phone : String
  alertLevel : String
deriving DecidableEq

/-- The component state of `GroupScreen` relevant to `sendMessage`: the
message list, the saved emergency contacts, and whether the
emergency-contact alert branch has been taken. -/
structure ChatState where
  messages : List ChatMessage
  contacts : List Contact
  alertShown : Bool
deriving DecidableEq

set_option maxHeartbeats 2000000 in
/-- The Unicode simple lowercase mappings (Default Case Conversion,
UnicodeData 14.0) for every code point above the ASCII range whose
lowercase differs from itself, as `(upper, lower)` pairs in code-point
order.  Together with the ASCII fast path and the U+0130 expansion in
`jsLowerChar` this is the character-level content of
`String.prototype.toLowerCase`. -/
def lowerTable : List (Nat × Nat) :=
  [(192, 224), (193, 225), (194, 226), (195, 227), (196, 228), (197, 229),
   (198, 230), (199, 231), (200, 232), (201, 233), (202, 234), (203, 235),
   (204, 236), (205, 237), (206, 238), (207, 239), (208, 240), (209, 241),
   (210, 242), (211, 243), (212, 244), (213, 245), (214, 246), (216, 248),
   (217, 249), (218, 250), (219, 251), (220, 252), (221, 253), (222, 254),
   (256, 257), (258, 259), (260, 261), (262, 263), (264, 265), (266, 267),
   (268, 269), (270, 271), (272, 273), (274, 275), (276, 277), (278, 279),
   (280, 281), (282, 283), (284, 285), (286, 287), (288, 289), (290, 291),
   (292, 293), (294, 295), (296, 297), (298, 299), (300, 301), (302, 303),
   (306, 307), (308, 309), (310, 311), (313, 314), (315, 316), (317, 318),
   (319, 320), (321, 322), (323, 324), (325, 326), (327, 328), (330, 331),
   (332, 333), (334, 335), (336, 337), (338, 339), (340, 341), (342, 343),
   (344, 345), (346, 347), (348, 349), (350, 351), (352, 353), (354, 355),
   (356, 357), (358, 359), (360, 361), (362, 363), (364, 365), (366, 367),
   (368, 369), (370, 371), (372, 373), (374, 375), (376, 255), (377, 378),
   (379, 380), (381, 382), (385, 595), (386, 387), (388, 389), (390, 596),
   (391, 392), (393, 598), (394, 599), (395, 396), (398, 477), (399, 601),
   (400, 603), (401, 402), (403, 608), (404, 611), (406, 617), (407, 616),
   (408, 409), (412, 623), (413, 626), (415, 629), (416, 417), (418, 419),
   (420, 421), (422, 640), (423, 424), (425, 643), (428, 429), (430, 648),
   (431, 432), (433, 650), (434, 651), (435, 436), (437, 438), (439, 658),
   (440, 441), (444, 445), (452, 454), (453, 454), (455, 457), (456, 457),
   (458, 460), (459, 460), (461, 462), (463, 464), (465, 466), (467, 468),
   (469, 470), (471, 472), (473, 474), (475, 476), (478, 479), (480, 481),
   (482, 483), (484, 485), (486, 487), (488, 489), (490, 491), (492, 493),
   (494, 495), (497, 499), (498, 499), (500, 501), (502, 405), (503, 447),
   (504, 505), (506, 507), (508, 509), (510, 511), (512, 513), (514, 515),
   (516, 517), (518, 519), (520, 521), (522, 523), (524, 525), (526, 527),
   (528, 529), (530, 531), (532, 533), (534, 535), (536, 537), (538, 539),
   (540, 541), (542, 543), (544, 414), (546, 547), (548, 549), (550, 551),
   (552, 553), (554, 555), (556, 557), (558, 559), (560, 561), (562, 563),
   (570, 11365), (571, 572), (573, 410), (574, 11366), (577, 578), (579, 384),
   (580, 649), (581, 652), (582, 583), (584, 585), (586, 587), (588, 589),
   (590, 591), (880, 881), (882, 883), (886, 887), (895, 1011), (902, 940),
   (904, 941), (905, 942), (906, 943), (908, 972), (910, 973), (911, 974),
   (913, 945), (914, 946), (915, 947), (916, 948), (917, 949), (918, 950),
   (919, 951), (920, 952), (921, 953), (922, 954), (923, 955), (924, 956),
   (925, 957), (926, 958), (927, 959), (928, 960), (929, 961), (931, 963),
   (932, 964), (933, 965), (934, 966), (935, 967), (936, 968), (937, 969),
   (938, 970), (939, 971), (975, 983), (984, 985), (986, 987), (988, 989),
   (990, 991), (992, 993), (994, 995), (996, 997), (998, 999), (1000, 1001),
   (1002, 1003), (1004, 1005), (1006, 1007), (1012, 952), (1015, 1016), (1017, 1010),
   (1018, 1019), (1021, 891), (1022, 892), (1023, 893), (1024, 1104), (1025, 1105),
   (1026, 1106), (1027, 1107), (1028, 1108), (1029, 1109), (1030, 1110), (1031, 1111),
   (1032, 1112), (1033, 1113), (1034, 1114), (1035, 1115), (1036, 1116), (1037, 1117),
   (1038, 1118), (1039, 1119), (1040, 1072), (1041, 1073), (1042, 1074), (1043, 1075),
   (1044, 1076), (1045, 1077), (1046, 1078), (1047, 1079), (1048, 1080), (1049, 1081),
   (1050, 1082), (1051, 1083), (1052, 1084), (1053, 1085), (1054, 1086), (1055, 1087),
   (1056, 1088), (1057, 1089), (1058, 1090), (1059, 1091), (1060, 1092), (1061, 1093),
   (1062, 1094), (1063, 1095), (1064, 1096), (1065, 1097), (1066, 1098), (1067, 1099),
   (1068, 1100), (1069, 1101), (1070, 1102), (1071, 1103), (1120, 1121), (1122, 1123),
   (1124, 1125), (1126, 1127), (1128, 1129), (1130, 1131), (1132, 1133), (1134, 1135),
   (1136, 1137), (1138, 1139), (1140, 1141), (1142, 1143), (1144, 1145), (1146, 1147),
   (1148, 1149), (1150, 1151), (1152, 1153), (1162, 1163), (1164, 1165), (1166, 1167),
   (1168, 1169), (1170, 1171), (1172, 1173), (1174, 1175), (1176, 1177), (1178, 1179),
   (1180, 1181), (1182, 1183), (1184, 1185), (1186, 1187), (1188, 1189), (1190, 1191),
   (1192, 1193), (1194, 1195), (1196, 1197), (1198, 1199), (1200, 1201), (1202, 1203),
   (1204, 1205), (1206, 1207), (1208, 1209), (1210, 1211), (1212, 1213), (1214, 1215),
   (1216, 1231), (1217, 1218), (1219, 1220), (1221, 1222), (1223, 1224), (1225, 1226),
   (1227, 1228), (1229, 1230), (1232, 1233), (1234, 1235), (1236, 1237), (1238, 1239),
   (1240, 1241), (1242, 1243), (1244, 1245), (1246, 1247), (1248, 1249), (1250, 1251),
   (1252, 1253), (1254, 1255), (1256, 1257), (1258, 1259), (1260, 1261), (1262, 1263),
   (1264, 1265), (1266, 1267), (1268, 1269), (1270, 1271), (1272, 1273), (1274, 1275),
   (1276, 1277), (1278, 1279), (1280, 1281), (1282, 1283), (1284, 1285), (1286, 1287),
   (1288, 1289), (1290, 1291), (1292, 1293), (1294, 1295), (1296, 1297), (1298, 1299),
   (1300, 1301), (1302, 1303), (1304, 1305), (1306, 1307), (1308, 1309), (1310, 1311),
   (1312, 1313), (1314, 1315), (1316, 1317), (1318, 1319), (1320, 1321), (1322, 1323),
   (1324, 1325), (1326, 1327), (1329, 1377), (1330, 1378), (1331, 1379), (1332, 1380),
   (1333, 1381), (1334, 1382), (1335, 1383), (1336, 1384), (1337, 1385), (1338, 1386),
   (1339, 1387), (1340, 1388), (1341, 1389), (1342, 1390), (1343, 1391), (1344, 1392),
   (1345, 1393), (1346, 1394), (1347, 1395), (1348, 1396), (1349, 1397), (1350, 1398),
   (1351, 1399), (1352, 1400), (1353, 1401), (1354, 1402), (1355, 1403), (1356, 1404),
   (1357, 1405), (1358, 1406), (1359, 1407), (1360, 1408), (1361, 1409), (1362, 1410),
   (1363, 1411), (1364, 1412), (1365, 1413), (1366, 1414), (4256, 11520), (4257, 11521),
   (4258, 11522), (4259, 11523), (4260, 11524), (4261, 11525), (4262, 11526), (4263, 11527),
   (4264, 11528), (4265, 11529), (4266, 11530), (4267, 11531), (4268, 11532), (4269, 11533),
   (4270, 11534), (4271, 11535), (4272, 11536), (4273, 11537), (4274, 11538), (4275, 11539),
   (4276, 11540), (4277, 11541), (4278, 11542), (4279, 11543), (4280, 11544), (4281, 11545),
   (4282, 11546), (4283, 11547), (4284, 11548), (4285, 11549), (4286, 11550), (4287, 11551),
   (4288, 11552), (4289, 11553), (4290, 11554), (4291, 11555), (4292, 11556), (4293, 11557),
   (4295, 11559), (4301, 11565), (5024, 43888), (5025, 43889), (5026, 43890), (5027, 43891),
   (5028, 43892), (5029, 43893), (5030, 43894), (5031, 43895), (5032, 43896), (5033, 43897),
   (5034, 43898), (5035, 43899), (5036, 43900), (5037, 43901), (5038, 43902), (5039, 43903),
   (5040, 43904), (5041, 43905), (5042, 43906), (5043, 43907), (5044, 43908), (5045, 43909),
   (5046, 43910), (5047, 43911), (5048, 43912), (5049, 43913), (5050, 43914), (5051, 43915),
   (5052, 43916), (5053, 43917), (5054, 43918), (5055, 43919), (5056, 43920), (5057, 43921),
   (5058, 43922), (5059, 43923), (5060, 43924), (5061, 43925), (5062, 43926), (5063, 43927),
   (5064, 43928), (5065, 43929), (5066, 43930), (5067, 43931), (5068, 43932), (5069, 43933),
   (5070, 43934), (5071, 43935), (5072, 43936), (5073, 43937), (5074, 43938), (5075, 43939),
   (5076, 43940), (5077, 43941), (5078, 43942), (5079, 43943), (5080, 43944), (5081, 43945),
   (5082, 43946), (5083, 43947), (5084, 43948), (5085, 43949), (5086, 43950), (5087, 43951),
   (5088, 43952), (5089, 43953), (5090, 43954), (5091, 43955), (5092, 43956), (5093, 43957),
   (5094, 43958), (5095, 43959), (5096, 43960), (5097, 43961), (5098, 43962), (5099, 43963),
   (5100, 43964), (5101, 43965), (5102, 43966), (5103, 43967), (5104, 5112), (5105, 5113),
   (5106, 5114), (5107, 5115), (5108, 5116), (5109, 5117), (7312, 4304), (7313, 4305),
   (7314, 4306), (7315, 4307), (7316, 4308), (7317, 4309), (7318, 4310), (7319, 4311),
   (7320, 4312), (7321, 4313), (7322, 4314), (7323, 4315), (7324, 4316), (7325, 4317),
   (7326, 4318), (7327, 4319), (7328, 4320), (7329, 4321), (7330, 4322), (7331, 4323),
   (7332, 4324), (7333, 4325), (7334, 4326), (7335, 4327), (7336, 4328), (7337, 4329),
   (7338, 4330), (7339, 4331), (7340, 4332), (7341, 4333), (7342, 4334), (7343, 4335),
   (7344, 4336), (7345, 4337), (7346, 4338), (7347, 4339), (7348, 4340), (7349, 4341),
   (7350, 4342), (7351, 4343), (7352, 4344), (7353, 4345), (7354, 4346), (7357, 4349),
   (7358, 4350), (7359, 4351), (7680, 7681), (7682, 7683), (7684, 7685), (7686, 7687),
   (7688, 7689), (7690, 7691), (7692, 7693), (7694, 7695), (7696, 7697), (7698, 7699),
   (7700, 7701), (7702, 7703), (7704, 7705), (7706, 7707), (7708, 7709), (7710, 7711),
   (7712, 7713), (7714, 7715), (7716, 7717), (7718, 7719), (7720, 7721), (7722, 7723),
   (7724, 7725), (7726, 7727), (7728, 7729), (7730, 7731), (7732, 7733), (7734, 7735),
   (7736, 7737), (7738, 7739), (7740, 7741), (7742, 7743), (7744, 7745), (7746, 7747),
   (7748, 7749), (7750, 7751), (7752, 7753), (7754, 7755), (7756, 7757), (7758, 7759),
   (7760, 7761), (7762, 7763), (7764, 7765), (7766, 7767), (7768, 7769), (7770, 7771),
   (7772, 7773), (7774, 7775), (7776, 7777), (7778, 7779), (7780, 7781), (7782, 7783),
   (7784, 7785), (7786, 7787), (7788, 7789), (7790, 7791), (7792, 7793), (7794, 7795),
   (7796, 7797), (7798, 7799), (7800, 7801), (7802, 7803), (7804, 7805), (7806, 7807),
   (7808, 7809), (7810, 7811), (7812, 7813), (7814, 7815), (7816, 7817), (7818, 7819),
   (7820, 7821), (7822, 7823), (7824, 7825), (7826, 7827), (7828, 7829), (7838, 223),
   (7840, 7841), (7842, 7843), (7844, 7845), (7846, 7847), (7848, 7849), (7850, 7851),
   (7852, 7853), (7854, 7855), (7856, 7857), (7858, 7859), (7860, 7861), (7862, 7863),
   (7864, 7865), (7866, 7867), (7868, 7869), (7870, 7871), (7872, 7873), (7874, 7875),
   (7876, 7877), (7878, 7879), (7880, 7881), (7882, 7883), (7884, 7885), (7886, 7887),
   (7888, 7889), (7890, 7891), (7892, 7893), (7894, 7895), (7896, 7897), (7898, 7899),
   (7900, 7901), (7902, 7903), (7904, 7905), (7906, 7907), (7908, 7909), (7910, 7911),
   (7912, 7913), (7914, 7915), (7916, 7917), (7918, 7919), (7920, 7921), (7922, 7923),
   (7924, 7925), (7926, 7927), (7928, 7929), (7930, 7931), (7932, 7933), (7934, 7935),
   (7944, 7936), (7945, 7937), (7946, 7938), (7947, 7939), (7948, 7940), (7949, 7941),
   (7950, 7942), (7951, 7943), (7960, 7952), (7961, 7953), (7962, 7954), (7963, 7955),
   (7964, 7956), (7965, 7957), (7976, 7968), (7977, 7969), (7978, 7970), (7979, 7971),
   (7980, 7972), (7981, 7973), (7982, 7974), (7983, 7975), (7992, 7984), (7993, 7985),
   (7994, 7986), (7995, 7987), (7996, 7988), (7997, 7989), (7998, 7990), (7999, 7991),
   (8008, 8000), (8009, 8001), (8010, 8002), (8011, 8003), (8012, 8004), (8013, 8005),
   (8025, 8017), (8027, 8019), (8029, 8021), (8031, 8023), (8040, 8032), (8041, 8033),
   (8042, 8034), (8043, 8035), (8044, 8036), (8045, 8037), (8046, 8038), (8047, 8039),
   (8072, 8064), (8073, 8065), (8074, 8066), (8075, 8067), (8076, 8068), (8077, 8069),
   (8078, 8070), (8079, 8071), (8088, 8080), (8089, 8081), (8090, 8082), (8091, 8083),
   (8092, 8084), (8093, 8085), (8094, 8086), (8095, 8087), (8104, 8096), (8105, 8097),
   (8106, 8098), (8107, 8099), (8108, 8100), (8109, 8101), (8110, 8102), (8111, 8103),
   (8120, 8112), (8121, 8113), (8122, 8048), (8123, 8049), (8124, 8115), (8136, 8050),
   (8137, 8051), (8138, 8052), (8139, 8053), (8140, 8131), (8152, 8144), (8153, 8145),
   (8154, 8054), (8155, 8055), (8168, 8160), (8169, 8161), (8170, 8058), (8171, 8059),
   (8172, 8165), (8184, 8056), (8185, 8057), (8186, 8060), (8187, 8061), (8188, 8179),
   (8486, 969), (8490, 107), (8491, 229), (8498, 8526), (8544, 8560), (8545, 8561),
   (8546, 8562), (8547, 8563), (8548, 8564), (8549, 8565), (8550, 8566), (8551, 8567),
   (8552, 8568), (8553, 8569), (8554, 8570), (8555, 8571), (8556, 8572), (8557, 8573),
   (8558, 8574), (8559, 8575), (8579, 8580), (9398, 9424), (9399, 9425), (9400, 9426),
   (9401, 9427), (9402, 9428), (9403, 9429), (9404, 9430), (9405, 9431), (9406, 9432),
   (9407, 9433), (9408, 9434), (9409, 9435), (9410, 9436), (9411, 9437), (9412, 9438),
   (9413, 9439), (9414, 9440), (9415, 9441), (9416, 9442), (9417, 9443), (9418, 9444),
   (9419, 9445), (9420, 9446), (9421, 9447), (9422, 9448), (9423, 9449), (11264, 11312),
   (11265, 11313), (11266, 11314), (11267, 11315), (11268, 11316), (11269, 11317), (11270, 11318),
   (11271, 11319), (11272, 11320), (11273, 11321), (11274, 11322), (11275, 11323), (11276, 11324),
   (11277, 11325), (11278, 11326), (11279, 11327), (11280, 11328), (11281, 11329), (11282, 11330),
   (11283, 11331), (11284, 11332), (11285, 11333), (11286, 11334), (11287, 11335), (11288, 11336),
   (11289, 11337), (11290, 11338), (11291, 11339), (11292, 11340), (11293, 11341), (11294, 11342),
   (11295, 11343), (11296, 11344), (11297, 11345), (11298, 11346), (11299, 11347), (11300, 11348),
   (11301, 11349), (11302, 11350), (11303, 11351), (11304, 11352), (11305, 11353), (11306, 11354),
   (11307, 11355), (11308, 11356), (11309, 11357), (11310, 11358), (11311, 11359), (11360, 11361),
   (11362, 619), (11363, 7549), (11364, 637), (11367, 11368), (11369, 11370), (11371, 11372),
   (11373, 593), (11374, 625), (11375, 592), (11376, 594), (11378, 11379), (11381, 11382),
   (11390, 575), (11391, 576), (11392, 11393), (11394, 11395), (11396, 11397), (11398, 11399),
   (11400, 11401), (11402, 11403), (11404, 11405), (11406, 11407), (11408, 11409), (11410, 11411),
   (11412, 11413), (11414, 11415), (11416, 11417), (11418, 11419), (11420, 11421), (11422, 11423),
   (11424, 11425), (11426, 11427), (11428, 11429), (11430, 11431), (11432, 11433), (11434, 11435),
   (11436, 11437), (11438, 11439), (11440, 11441), (11442, 11443), (11444, 11445), (11446, 11447),
   (11448, 11449), (11450, 11451), (11452, 11453), (11454, 11455), (11456, 11457), (11458, 11459),
   (11460, 11461), (11462, 11463), (11464, 11465), (11466, 11467), (11468, 11469), (11470, 11471),
   (11472, 11473), (11474, 11475), (11476, 11477), (11478, 11479), (11480, 11481), (11482, 11483),
   (11484, 11485), (11486, 11487), (11488, 11489), (11490, 11491), (11499, 11500), (11501, 11502),
   (11506, 11507), (42560, 42561), (42562, 42563), (42564, 42565), (42566, 42567), (42568, 42569),
   (42570, 42571), (42572, 42573), (42574, 42575), (42576, 42577), (42578, 42579), (42580, 42581),
   (42582, 42583), (42584, 42585), (42586, 42587), (42588, 42589), (42590, 42591), (42592, 42593),
   (42594, 42595), (42596, 42597), (42598, 42599), (42600, 42601), (42602, 42603), (42604, 42605),
   (42624, 42625), (42626, 42627), (42628, 42629), (42630, 42631), (42632, 42633), (42634, 42635),
   (42636, 42637), (42638, 42639), (42640, 42641), (42642, 42643), (42644, 42645), (42646, 42647),
   (42648, 42649), (42650, 42651), (42786, 42787), (42788, 42789), (42790, 42791), (42792, 42793),
   (42794, 42795), (42796, 42797), (42798, 42799), (42802, 42803), (42804, 42805), (42806, 42807),
   (42808, 42809), (42810, 42811), (42812, 42813), (42814, 42815), (42816, 42817), (42818, 42819),
   (42820, 42821), (42822, 42823), (42824, 42825), (42826, 42827), (42828, 42829), (42830, 42831),
   (42832, 42833), (42834, 42835), (42836, 42837), (42838, 42839), (42840, 42841), (42842, 42843),
   (42844, 42845), (42846, 42847), (42848, 42849), (42850, 42851), (42852, 42853), (42854, 42855),
   (42856, 42857), (42858, 42859), (42860, 42861), (42862, 42863), (42873, 42874), (42875, 42876),
   (42877, 7545), (42878, 42879), (42880, 42881), (42882, 42883), (42884, 42885), (42886, 42887),
   (42891, 42892), (42893, 613), (42896, 42897), (42898, 42899), (42902, 42903), (42904, 42905),
   (42906, 42907), (42908, 42909), (42910, 42911), (42912, 42913), (42914, 42915), (42916, 42917),
   (42918, 42919), (42920, 42921), (42922, 614), (42923, 604), (42924, 609), (42925, 620),
   (42926, 618), (42928, 670), (42929, 647), (42930, 669), (42931, 43859), (42932, 42933),
   (42934, 42935), (42936, 42937), (42938, 42939), (42940, 42941), (42942, 42943), (42944, 42945),
   (42946, 42947), (42948, 42900), (42949, 642), (42950, 7566), (42951, 42952), (42953, 42954),
   (42960, 42961), (42966, 42967), (42968, 42969), (42997, 42998), (65313, 65345), (65314, 65346),
   (65315, 65347), (65316, 65348), (65317, 65349), (65318, 65350), (65319, 65351), (65320, 65352),
   (65321, 65353), (65322, 65354), (65323, 65355), (65324, 65356), (65325, 65357), (65326, 65358),
   (65327, 65359), (65328, 65360), (65329, 65361), (65330, 65362), (65331, 65363), (65332, 65364),
   (65333, 65365), (65334, 65366), (65335, 65367), (65336, 65368), (65337, 65369), (65338, 65370),
   (66560, 66600), (66561, 66601), (66562, 66602), (66563, 66603), (66564, 66604), (66565, 66605),
   (66566, 66606), (66567, 66607), (66568, 66608), (66569, 66609), (66570, 66610), (66571, 66611),
   (66572, 66612), (66573, 66613), (66574, 66614), (66575, 66615), (66576, 66616), (66577, 66617),
   (66578, 66618), (66579, 66619), (66580, 66620), (66581, 66621), (66582, 66622), (66583, 66623),
   (66584, 66624), (66585, 66625), (66586, 66626), (66587, 66627), (66588, 66628), (66589, 66629),
   (66590, 66630), (66591, 66631), (66592, 66632), (66593, 66633), (66594, 66634), (66595, 66635),
   (66596, 66636), (66597, 66637), (66598, 66638), (66599, 66639), (66736, 66776), (66737, 66777),
   (66738, 66778), (66739, 66779), (66740, 66780), (66741, 66781), (66742, 66782), (66743, 66783),
   (66744, 66784), (66745, 66785), (66746, 66786), (66747, 66787), (66748, 66788), (66749, 66789),
   (66750, 66790), (66751, 66791), (66752, 66792), (66753, 66793), (66754, 66794), (66755, 66795),
   (66756, 66796), (66757, 66797), (66758, 66798), (66759, 66799), (66760, 66800), (66761, 66801),
   (66762, 66802), (66763, 66803), (66764, 66804), (66765, 66805), (66766, 66806), (66767, 66807),
   (66768, 66808), (66769, 66809), (66770, 66810), (66771, 66811), (66928, 66967), (66929, 66968),
   (66930, 66969), (66931, 66970), (66932, 66971), (66933, 66972), (66934, 66973), (66935, 66974),
   (66936, 66975), (66937, 66976), (66938, 66977), (66940, 66979), (66941, 66980), (66942, 66981),
   (66943, 66982), (66944, 66983), (66945, 66984), (66946, 66985), (66947, 66986), (66948, 66987),
   (66949, 66988), (66950, 66989), (66951, 66990), (66952, 66991), (66953, 66992), (66954, 66993),
   (66956, 66995), (66957, 66996), (66958, 66997), (66959, 66998), (66960, 66999), (66961, 67000),
   (66962, 67001), (66964, 67003), (66965, 67004), (68736, 68800), (68737, 68801), (68738, 68802),
   (68739, 68803), (68740, 68804), (68741, 68805), (68742, 68806), (68743, 68807), (68744, 68808),
   (68745, 68809), (68746, 68810), (68747, 68811), (68748, 68812), (68749, 68813), (68750, 68814),
   (68751, 68815), (68752, 68816), (68753, 68817), (68754, 68818), (68755, 68819), (68756, 68820),
   (68757, 68821), (68758, 68822), (68759, 68823), (68760, 68824), (68761, 68825), (68762, 68826),
   (68763, 68827), (68764, 68828), (68765, 68829), (68766, 68830), (68767, 68831), (68768, 68832),
   (68769, 68833), (68770, 68834), (68771, 68835), (68772, 68836), (68773, 68837), (68774, 68838),
   (68775, 68839), (68776, 68840), (68777, 68841), (68778, 68842), (68779, 68843), (68780, 68844),
   (68781, 68845), (68782, 68846), (68783, 68847), (68784, 68848), (68785, 68849), (68786, 68850),
   (71840, 71872), (71841, 71873), (71842, 71874), (71843, 71875), (71844, 71876), (71845, 71877),
   (71846, 71878), (71847, 71879), (71848, 71880), (71849, 71881), (71850, 71882), (71851, 71883),
   (71852, 71884), (71853, 71885), (71854, 71886), (71855, 71887), (71856, 71888), (71857, 71889),
   (71858, 71890), (71859, 71891), (71860, 71892), (71861, 71893), (71862, 71894), (71863, 71895),
   (71864, 71896), (71865, 71897), (71866, 71898), (71867, 71899), (71868, 71900), (71869, 71901),
   (71870, 71902), (71871, 71903), (93760, 93792), (93761, 93793), (93762, 93794), (93763, 93795),
   (93764, 93796), (93765, 93797), (93766, 93798), (93767, 93799), (93768, 93800), (93769, 93801),
   (93770, 93802), (93771, 93803), (93772, 93804), (93773, 93805), (93774, 93806), (93775, 93807),
   (93776, 93808), (93777, 93809), (93778, 93810), (93779, 93811), (93780, 93812), (93781, 93813),
   (93782, 93814), (93783, 93815), (93784, 93816), (93785, 93817), (93786, 93818), (93787, 93819),
   (93788, 93820), (93789, 93821), (93790, 93822), (93791, 93823), (125184, 125218), (125185, 125219),
   (125186, 125220), (125187, 125221), (125188, 125222), (125189, 125223), (125190, 125224), (125191, 125225),
   (125192, 125226), (125193, 125227), (125194, 125228), (125195, 125229), (125196, 125230), (125197, 125231),
   (125198, 125232), (125199, 125233), (125200, 125234), (125201, 125235), (125202, 125236), (125203, 125237),
   (125204, 125238), (125205, 125239), (125206, 125240), (125207, 125241), (125208, 125242), (125209, 125243),
   (125210, 125244), (125211, 125245), (125212, 125246), (125213, 125247), (125214, 125248), (125215, 125249),
   (125216, 125250), (125217, 125251)]

/-- One character's image under `String.prototype.toLowerCase` (ECMA-262
Default Case Conversion, locale-insensitive): ASCII `A`–`Z` shift by 32,
code points below U+00B5 are otherwise unchanged, U+0130 expands to
`i` followed by the combining dot above (U+0307), and everything else
follows the Unicode simple lowercase mapping.  The only deviation from
ECMA-262 is the context-sensitive Final_Sigma rule, which merely chooses
between `σ` and `ς` — neither occurs in any emergency code, so the
choice cannot affect `codeTriggers`. -/
def jsLowerChar (c : Char) : List Char :=
  let n := c.toNat
  if 65 ≤ n ∧ n ≤ 90 then [Char.ofNat (n + 32)]
  else if n < 181 then [c]
  else if n = 304 then [Char.ofNat 105, Char.ofNat 775]
  else
    match lowerTable.lookup n with
    | some m => [Char.ofNat m]
    | none => [c]

/-- `s.toLowerCase()` as a character sequence. -/
def toLowerChars (s : String) : List Char :=
  (s.data.map jsLowerChar).flatten

/-- `hay.includes(needle)`: `needle` occurs as a contiguous subsequence of
`hay`. -/
def includesList (hay needle : List Char) : Bool :=
  hay.tails.any fun t => needle.isPrefixOf t

/-- Whether a code triggers on an input:
`inputText.toLowerCase().includes(code.toLowerCase())`. -/
def codeTriggers (input code : String) : Bool :=
  includesList (toLowerChars input) (toLowerChars code)

/-- The exact character set stripped by `String.prototype.trim`
(ECMA-262 WhiteSpace ∪ LineTerminator): TAB, LF, VT, FF, CR, SP, NBSP,
Ogham space mark, the U+2000–U+200A spaces, LS, PS, NNBSP, MMSP,
ideographic space and ZWNBSP. -/
def isJsWhitespace (c : Char) : Bool :=
  let n := c.toNat
  n == 9 || n == 10 || n == 11 || n == 12 || n == 13 || n == 32 ||
    n == 160 || n == 5760 || (8192 ≤ n && n ≤ 8202) || n == 8232 ||
    n == 8233 || n == 8239 || n == 8287 || n == 12288 || n == 65279

/-- `!inputText.trim()`: the message is empty after trimming, i.e. all of
its characters are whitespace. -/
def trimmedEmpty (s : String) : Bool :=
  s.data.all isJsWhitespace

/-- `handleEmergencyCode`: appends the mentor auto-response and, for a
critical code with a non-empty contact list, takes the alert branch. -/
def handleEmergencyCode (info : CodeInfo) (s : ChatState) : ChatState :=
  let s := { s with messages := s.messages ++ [⟨info.response, "mentor"⟩] }
  if info.severity = "critical" ∧ 0 < s.contacts.length then
    { s with alertShown := true }
  else s

/-- The body of `sendMessage`'s `forEach` over `emergencyCodes`. -/
def scanCode (input : String) (s : ChatState) (ci : String × CodeInfo) :
    ChatState :=
  if codeTriggers input ci.1 then handleEmergencyCode ci.2 s else s

/-- `sendMessage`: ignores blank input, otherwise appends the user message
and scans every emergency code against the text. -/
def sendMessage (input : String) (s : ChatState) : ChatState :=
  if trimmedEmpty input then s
  else
    emergencyCodes.foldl (scanCode input)
      { s with messages := s.messages ++ [⟨input, "user"⟩] }

/-- The emergency codes that occur (case-insensitively) in an input. -/
def triggeredCodes (input : String) : List (String × CodeInfo) :=
  emergencyCodes.filter fun ci => codeTriggers input ci.1

/-! ### Generic storage lemmas -/

theorem lookup_eq_none_of_keys_ne (l : Storage) (k : String) :
    (∀ p ∈ l, p.1 ≠ k) → List.lookup k l = none := by
  intro h
  rw [List.lookup_eq_none_iff]
  intro p hp
  simpa using (h p hp).symm

theorem lookup_filter_of_key_kept (l : Storage) (k : String)
    (p : String × String → Bool) :
    (∀ x ∈ l, x.1 = k → p x = true) →
    List.lookup k (l.filter p) = List.lookup k l := by
  induction l with
  | nil => intro _; rfl
  | cons a l ih =>
    intro h
    by_cases hk : a.1 = k
    · have hpa : p a = true := h a (List.mem_cons_self a l) hk
      have hbeq : (k == a.1) = true := by simp [hk]
      simp [List.filter, hpa, List.lookup, hbeq]
    · have hbeq : (k == a.1) = false := by simp [Ne.symm hk]
      cases hpa : p a with
      | true =>
        simp [List.filter, hpa, List.lookup, hbeq]
        exact ih fun x hx => h x (List.mem_cons_of_mem a hx)
      | false =>
        simp [List.filter, hpa, List.lookup, hbeq]
        exact ih fun x hx => h x (List.mem_cons_of_mem a hx)

/-! ### Panic-wipe claims -/

/-- C3: after `panicMode`, every stored key outside the allowlist
`['recipes', 'normalSettings']` has been removed from storage, and the
authenticated flag is false. -/
theorem panicMode_removes_non_allowlisted (s : SecurityState) (k : String)
    (hk : k ∉ keysToKeep) :
    getItem k (panicMode s).storage = none ∧
    (panicMode s).isAuthenticated = false := by
  refine ⟨?_, rfl⟩
  apply lookup_eq_none_of_keys_ne
  intro p hp hpk
  obtain ⟨hmem, hpred⟩ := List.mem_filter.mp hp
  have hkAll : k ∈ getAllKeys s.storage :=
    List.mem_map.mpr ⟨p, hmem, hpk⟩
  rw [hpk] at hpred
  simp [List.contains] at hpred
  rcases hpred with h | h
  · exact h hkAll
  · exact hk h

/-- C3 witness: wiping a storage holding a `riskLevel` entry removes it
and drops authentication. -/
theorem panicMode_removes_non_allowlisted_witness :
    "riskLevel" ∉ keysToKeep ∧
    (getItem "riskLevel"
        (panicMode ⟨none, true,
          [("riskLevel", "alto"), ("recipes", "bolo")]⟩).storage = none ∧
      (panicMode ⟨none, true,
        [("riskLevel", "alto"), ("recipes", "bolo")]⟩).isAuthenticated
        = false) :=
  ⟨by decide,
   panicMode_removes_non_allowlisted
     ⟨none, true, [("riskLevel", "alto"), ("recipes", "bolo")]⟩
     "riskLevel" (by decide)⟩

/-- C4: `panicMode` leaves the allowlisted keys untouched — the value
stored under `recipes` or `normalSettings` is the same before and after
the wipe. -/
theorem panicMode_preserves_allowlisted (s : SecurityState) (k : String)
    (hk : k ∈ keysToKeep) :
    getItem k (panicMode s).storage = getItem k s.storage := by
  apply lookup_filter_of_key_kept
  intro x hx hxk
  simp [List.contains]
  right
  rw [hxk]
  exact hk

/-- C4 witness: the `recipes` entry survives a wipe of a storage that also
holds sensitive keys. -/
theorem panicMode_preserves_allowlisted_witness :
    "recipes" ∈ keysToKeep ∧
    getItem "recipes"
        (panicMode ⟨none, false,
          [("recipes", "pudim"), ("assessmentScore", "55")]⟩).storage =
      getItem "recipes"
        (⟨none, false,
          [("recipes", "pudim"), ("assessmentScore", "55")]⟩ :
          SecurityState).storage :=
  ⟨by decide,
   panicMode_preserves_allowlisted
     ⟨none, false, [("recipes", "pudim"), ("assessmentScore", "55")]⟩
     "recipes" (by decide)⟩

/-! ### Risk-classification claims -/

/-- C1: `calculateRisk` classifies every total score into exactly one of
the tiers `baixo`/`moderado`/`alto` by the fixed thresholds 20 and 40,
and persists that tier under the storage key `riskLevel`. -/
theorem calculateRisk_classifies (score : Nat) (st : Storage) :
    ((calculateRisk score st).riskLevel = "baixo" ∨
      (calculateRisk score st).riskLevel = "moderado" ∨
      (calculateRisk score st).riskLevel = "alto") ∧
    (score ≤ 20 → (calculateRisk score st).riskLevel = "baixo") ∧
    (20 < score → score ≤ 40 →
      (calculateRisk score st).riskLevel = "moderado") ∧
    (40 < score → (calculateRisk score st).riskLevel = "alto") ∧
    getItem "riskLevel" (calculateRisk score st).storage =
      some (calculateRisk score st).riskLevel := by
  by_cases h1 : score ≤ 20
  · simp [calculateRisk, getItem, setItem, List.lookup, h1]
    try omega
  · by_cases h2 : score ≤ 40
    · simp [calculateRisk, getItem, setItem, List.lookup, h1, h2]
      try omega
    · simp [calculateRisk, getItem, setItem, List.lookup, h1, h2]
      try omega

/-- C1 witness: scores 10, 30 and 50 land in the three tiers. -/
theorem calculateRisk_classifies_witness :
    (10 ≤ 20 ∧ (calculateRisk 10 []).riskLevel = "baixo") ∧
    (20 < 30 ∧ 30 ≤ 40 ∧ (calculateRisk 30 []).riskLevel = "moderado") ∧
    (40 < 50 ∧ (calculateRisk 50 []).riskLevel = "alto") :=
  ⟨⟨by decide, (calculateRisk_classifies 10 []).2.1 (by decide)⟩,
   ⟨by decide, by decide,
    (calculateRisk_classifies 30 []).2.2.1 (by decide) (by decide)⟩,
   ⟨by decide, (calculateRisk_classifies 50 []).2.2.2.1 (by decide)⟩⟩

/-! ### Assessment-run claims -/

theorem assess_foldl_finalScore (l : List (Question × Nat)) :
    ∀ (q t : Nat) (ans : List (String × String)),
      q + l.length = questions.length → l ≠ [] →
      (l.foldl
        (fun st qi =>
          handleAnswer st qi.1.id (chosenOption qi.1 qi.2).value
            (chosenOption qi.1 qi.2).score)
        ⟨q, ans, t, none⟩).finalScore =
      some (t + (l.map fun qi => (chosenOption qi.1 qi.2).score).sum) := by
  induction l with
  | nil => intro q t ans _ hne; exact absurd rfl hne
  | cons x l ih =>
    intro q t ans hlen hne
    cases l with
    | nil =>
      have hq : q = 4 := by
        have h5 : questions.length = 5 := rfl
        rw [h5] at hlen
        simp at hlen
        omega
      subst hq
      have hcond : ¬((4 : Nat) < questions.length - 1) := by decide
      simp [handleAnswer, hcond]
    | cons y l' =>
      have hlt : q < questions.length - 1 := by
        have h5 : questions.length = 5 := rfl
        rw [h5] at hlen
        simp at hlen
        omega
      have hstep :
          handleAnswer ⟨q, ans, t, none⟩ x.1.id (chosenOption x.1 x.2).value
            (chosenOption x.1 x.2).score =
          ⟨q + 1, (x.1.id, (chosenOption x.1 x.2).value) :: ans,
            t + (chosenOption x.1 x.2).score, none⟩ := by
        simp [handleAnswer, hlt]
      have h5 : questions.length = 5 := rfl
      rw [List.foldl_cons, hstep,
        ih (q + 1) (t + (chosenOption x.1 x.2).score) _
          (by rw [h5] at hlen ⊢; simp at hlen ⊢; omega) (by simp)]
      simp [Nat.add_assoc]

/-- C2: in every complete run of the assessment (one selected option per
question, in order), the final score handed to `calculateRisk` is the sum
of the `score` fields of the selected options. -/
theorem runAssessment_final_eq_sum (sel : List Nat)
    (hsel : sel.length = questions.length) :
    (runAssessment sel).finalScore = some (selectedScores sel).sum := by
  unfold runAssessment selectedScores initialAssess
  rw [assess_foldl_finalScore (questions.zip sel) 0 0 []
    (by simp [hsel]) ?hne]
  · simp
  case hne =>
    have hz : (questions.zip sel).length = questions.length := by
      simp [hsel]
    intro h
    rw [h] at hz
    exact absurd hz.symm (by decide)

/-- C2 witness: a concrete run selecting option indices 0, 1, 2, 3, 0
accumulates exactly the selected scores. -/
theorem runAssessment_final_eq_sum_witness :
    ([0, 1, 2, 3, 0] : List Nat).length = questions.length ∧
    (runAssessment [0, 1, 2, 3, 0]).finalScore =
      some (selectedScores [0, 1, 2, 3, 0]).sum :=
  ⟨by decide, runAssessment_final_eq_sum [0, 1, 2, 3, 0] (by decide)⟩

theorem chosenOption_score_le (q : Question) (hq : q ∈ questions)
    (i : Nat) : (chosenOption q i).score ≤ 15 := by
  fin_cases hq <;>
    rcases i with _ | _ | _ | _ | i <;>
      simp [chosenOption, List.getD]

theorem list_sum_le_length_mul (l : List Nat) (b : Nat) :
    (∀ x ∈ l, x ≤ b) → l.sum ≤ l.length * b := by
  induction l with
  | nil => intro _; simp
  | cons x l ih =>
    intro h
    have hx : x ≤ b := h x (List.mem_cons_self x l)
    have hl : l.sum ≤ l.length * b :=
      ih fun y hy => h y (List.mem_cons_of_mem x hy)
    calc (x :: l).sum = x + l.sum := by simp
    _ ≤ b + l.length * b := Nat.add_le_add hx hl
    _ = (x :: l).length * b := by simp; ring

/-- C8: every complete run of the assessment yields a final score between
0 and 75, so the result screen's `Pontuação: {score}/75` never exceeds
its denominator. -/
theorem runAssessment_score_in_range (sel : List Nat)
    (hsel : sel.length = questions.length) (s : Nat)
    (hs : (runAssessment sel).finalScore = some s) : 0 ≤ s ∧ s ≤ 75 := by
  refine ⟨Nat.zero_le s, ?_⟩
  have hsum : (runAssessment sel).finalScore =
      some (selectedScores sel).sum := by
    unfold runAssessment selectedScores initialAssess
    rw [assess_foldl_finalScore (questions.zip sel) 0 0 []
      (by simp [hsel]) ?hne]
    · simp
    case hne =>
      have hz : (questions.zip sel).length = questions.length := by
        simp [hsel]
      intro h
      rw [h] at hz
      exact absurd hz.symm (by decide)
  rw [hsum] at hs
  have hs' : s = (selectedScores sel).sum := by
    exact (Option.some.injEq _ _).mp hs.symm
  subst hs'
  have hb : ∀ x ∈ selectedScores sel, x ≤ 15 := by
    intro x hx
    obtain ⟨qi, hqi, rfl⟩ := List.mem_map.mp hx
    exact chosenOption_score_le qi.1 (List.of_mem_zip hqi).1 qi.2
  have hlen : (selectedScores sel).length = 5 := by
    simp [selectedScores, hsel]
    decide
  calc (selectedScores sel).sum ≤ (selectedScores sel).length * 15 :=
    list_sum_le_length_mul _ 15 hb
  _ = 75 := by rw [hlen]

/-- C8 witness: the all-worst run scores exactly 75 and is within range. -/
theorem runAssessment_score_in_range_witness :
    ([3, 3, 3, 3, 3] : List Nat).length = questions.length ∧
    (runAssessment [3, 3, 3, 3, 3]).finalScore = some 75 ∧
    0 ≤ 75 ∧ 75 ≤ 75 :=
  ⟨by decide, by decide,
   runAssessment_score_in_range [3, 3, 3, 3, 3] (by decide) 75 (by decide)⟩

/-! ### Secret-gesture claims -/

theorem ticks_no_fire (ts : List Nat) :
    ∀ (s : RecipesState) (d : Nat), s.holdTimer = some d →
      (∀ t ∈ ts, t < d) → (ts.map PressEvent.tick).foldl stepEvent s = s := by
  induction ts with
  | nil => intro s d _ _; rfl
  | cons t ts ih =>
    intro s d hd hlt
    have hstep : stepEvent s (.tick t) = s := by
      have ht : ¬(d ≤ t) := by
        have := hlt t (List.mem_cons_self t ts)
        omega
      simp [stepEvent, hd, ht]
    simp only [List.map, List.foldl_cons, hstep]
    exact ih s d hd fun u hu => hlt u (List.mem_cons_of_mem t hu)

theorem ticks_idle (ts : List Nat) :
    ∀ s : RecipesState, s.holdTimer = none →
      (ts.map PressEvent.tick).foldl stepEvent s = s := by
  induction ts with
  | nil => intro s _; rfl
  | cons t ts ih =>
    intro s hd
    have hstep : stepEvent s (.tick t) = s := by
      simp [stepEvent, hd]
    simp only [List.map, List.foldl_cons, hstep]
    exact ih s hd

/-- C5: a press on the `especiais` category held for the full 5000 ms
runs the secret-access handler: the storage key `secretAccess` is set to
`'true'` and the hidden route `/avaliacao` is pushed. -/
theorem full_hold_triggers_secret (t0 : Nat) (st : Storage) :
    getItem "secretAccess"
        (runEvents ⟨none, false, st, []⟩
          [.pressIn t0 "especiais", .tick (t0 + 5000)]).storage =
      some "true" ∧
    (runEvents ⟨none, false, st, []⟩
      [.pressIn t0 "especiais", .tick (t0 + 5000)]).pushedRoutes =
      ["/avaliacao"] := by
  simp [runEvents, stepEvent, handlePressIn, handleSecretAccess, getItem,
    setItem]

/-- C5 witness: a press at time 0 held through the 5000 ms deadline sets
the flag and navigates. -/
theorem full_hold_triggers_secret_witness :
    getItem "secretAccess"
        (runEvents ⟨none, false, [], []⟩
          [.pressIn 0 "especiais", .tick (0 + 5000)]).storage =
      some "true" ∧
    (runEvents ⟨none, false, [], []⟩
      [.pressIn 0 "especiais", .tick (0 + 5000)]).pushedRoutes =
      ["/avaliacao"] :=
  full_hold_triggers_secret 0 []

/-- C6: if the press is released before 5000 ms have elapsed, the pending
timer is cancelled and the secret access never fires — the storage is
untouched (no `secretAccess` flag is written) and no route is pushed,
regardless of any later timer checks. -/
theorem early_release_no_secret (t0 t1 : Nat) (mid post : List Nat)
    (st : Storage) (hrel : t1 < t0 + 5000) (hmid : ∀ t ∈ mid, t ≤ t1) :
    runEvents ⟨none, false, st, []⟩
      (.pressIn t0 "especiais" ::
        (mid.map PressEvent.tick ++
          (PressEvent.pressOut :: post.map PressEvent.tick))) =
      ⟨none, false, st, []⟩ := by
  unfold runEvents
  rw [List.foldl_cons]
  have h1 : stepEvent ⟨none, false, st, []⟩ (.pressIn t0 "especiais") =
      ⟨some (t0 + 5000), true, st, []⟩ := by
    simp [stepEvent, handlePressIn]
  rw [h1, List.foldl_append,
    ticks_no_fire mid ⟨some (t0 + 5000), true, st, []⟩ (t0 + 5000) rfl
      (fun t ht => by have := hmid t ht; omega),
    List.foldl_cons]
  have h2 : stepEvent ⟨some (t0 + 5000), true, st, []⟩ .pressOut =
      ⟨none, false, st, []⟩ := by
    simp [stepEvent, handlePressOut]
  rw [h2, ticks_idle post ⟨none, false, st, []⟩ rfl]

/-- C6 witness: press at 0 ms, a timer check at 1000 ms, release at
4999 ms, and a late timer check leave the state untouched. -/
theorem early_release_no_secret_witness :
    4999 < 0 + 5000 ∧ (∀ t ∈ ([1000] : List Nat), t ≤ 4999) ∧
    runEvents ⟨none, false, [("x", "y")], []⟩
      (.pressIn 0 "especiais" ::
        (([1000] : List Nat).map PressEvent.tick ++
          (PressEvent.pressOut ::
            ([5000, 777777] : List Nat).map PressEvent.tick))) =
      ⟨none, false, [("x", "y")], []⟩ :=
  ⟨by decide, by decide,
   early_release_no_secret 0 4999 [1000] [5000, 777777] [("x", "y")]
     (by decide) (by decide)⟩

/-! ### Result-presentation claim -/

/-- C7: the result screen's disguise is a total function of the risk-tier
string alone, with fixed labels and colours for the three tiers and a
fallback for anything else. -/
theorem riskLevel_disguise_total :
    getRiskLevelText "alto" = "Iniciante na Cozinha" ∧
    getRiskLevelColor "alto" = "#FF0000" ∧
    getRiskLevelText "moderado" = "Cozinheira em Desenvolvimento" ∧
    getRiskLevelColor "moderado" = "#FFA500" ∧
    getRiskLevelText "baixo" = "Chef Experiente" ∧
    getRiskLevelColor "baixo" = "#4CAF50" ∧
    (∀ s : String, s ≠ "alto" → s ≠ "moderado" → s ≠ "baixo" →
      getRiskLevelText s = "Avaliando..." ∧ getRiskLevelColor s = "#999") := by
  refine ⟨rfl, rfl, rfl, rfl, rfl, rfl, ?_⟩
  intro s h1 h2 h3
  exact ⟨by simp [getRiskLevelText, h1, h2, h3],
    by simp [getRiskLevelColor, h1, h2, h3]⟩

/-- C7 witness: an unrecognised tier string falls back to the
`Avaliando...` label and the `#999` colour. -/
theorem riskLevel_disguise_total_witness :
    ("indefinido" : String) ≠ "alto" ∧ ("indefinido" : String) ≠ "moderado" ∧
    ("indefinido" : String) ≠ "baixo" ∧
    (getRiskLevelText "indefinido" = "Avaliando..." ∧
      getRiskLevelColor "indefinido" = "#999") :=
  ⟨by decide, by decide, by decide,
   riskLevel_disguise_total.2.2.2.2.2.2 "indefinido" (by decide) (by decide)
     (by decide)⟩

/-! ### Panic-code claim -/

theorem wordHex_length (n : Nat) : (wordHex n).length = 8 := by
  simp [wordHex]

theorem hashHexChars_length (h : Hash8) : (hashHexChars h).length = 64 := by
  simp [hashHexChars, wordHex_length]

theorem digestString_length (s : String) : (digestString s).length = 64 := by
  show (hashHexChars (sha256 (utf8Bytes s))).length = 64
  exact hashHexChars_length _

theorem checkPanicCode_default_false (now : Nat) (input : String) :
    checkPanicCode (some (defaultConfig now)) input = false := by
  simp only [checkPanicCode, defaultConfig]
  rw [beq_eq_false_iff_ne]
  intro h
  have h64 := digestString_length input
  rw [h] at h64
  exact absurd h64 (by decide)

/-- C9: `checkPanicCode` succeeds exactly when the SHA-256 digest of the
input equals the stored `panicCode`; after `setPanicCode c` the same code
checks out, but against the default configuration — which stores the
plaintext `'911911'`, not a digest — every input fails, including
`'911911'` itself. -/
theorem checkPanicCode_spec :
    (∀ (cfg : SecurityConfig) (input : String),
      (checkPanicCode (some cfg) input = true ↔
        digestString input = cfg.panicCode)) ∧
    (∀ (cfg : SecurityConfig) (code : String),
      checkPanicCode (some (setPanicCode cfg code)) code = true) ∧
    (∀ (now : Nat) (input : String),
      checkPanicCode (some (defaultConfig now)) input = false) ∧
    (∀ now : Nat,
      checkPanicCode (some (defaultConfig now)) "911911" = false) := by
  refine ⟨?_, ?_, checkPanicCode_default_false,
    fun now => checkPanicCode_default_false now "911911"⟩
  · intro cfg input
    simp [checkPanicCode]
  · intro cfg code
    simp [checkPanicCode, setPanicCode]

/-- C9 witness: under the default configuration, `'911911'` itself is
rejected. -/
theorem checkPanicCode_spec_witness :
    checkPanicCode (some (defaultConfig 0)) "911911" = false :=
  checkPanicCode_spec.2.2.2 0

/-! ### Chat emergency-code claims -/

theorem handleEmergencyCode_messages (info : CodeInfo) (s : ChatState) :
    (handleEmergencyCode info s).messages =
      s.messages ++ [⟨info.response, "mentor"⟩] := by
  unfold handleEmergencyCode
  dsimp only
  split <;> rfl

theorem handleEmergencyCode_contacts (info : CodeInfo) (s : ChatState) :
    (handleEmergencyCode info s).contacts = s.contacts := by
  unfold handleEmergencyCode
  dsimp only
  split <;> rfl

theorem handleEmergencyCode_alert (info : CodeInfo) (s : ChatState) :
    (handleEmergencyCode info s).alertShown =
      (s.alertShown ||
        ((info.severity == "critical") && !s.contacts.isEmpty)) := by
  unfold handleEmergencyCode
  by_cases h : info.severity = "critical" ∧ 0 < s.contacts.length
  · rw [if_pos h]
    have he : s.contacts.isEmpty = false := by
      cases hc : s.contacts with
      | nil => rw [hc] at h; simp at h
      | cons a l => simp
    simp [h.1, he]
  · rw [if_neg h]
    cases hb : (info.severity == "critical") with
    | false => simp
    | true =>
      have h1 : info.severity = "critical" := by
        exact eq_of_beq hb
      have h2 : ¬(0 < s.contacts.length) := fun hl => h ⟨h1, hl⟩
      have he : s.contacts.isEmpty = true := by
        cases hc : s.contacts with
        | nil => simp
        | cons a l => rw [hc] at h2; simp at h2
      simp [he]

theorem scan_foldl (input : String) (codes : List (String × CodeInfo)) :
    ∀ s : ChatState,
      (codes.foldl (scanCode input) s).messages =
        s.messages ++
          ((codes.filter fun ci => codeTriggers input ci.1).map
            fun ci => (⟨ci.2.response, "mentor"⟩ : ChatMessage)) ∧
      (codes.foldl (scanCode input) s).alertShown =
        (s.alertShown ||
          (((codes.filter fun ci => codeTriggers input ci.1).any
            fun ci => ci.2.severity == "critical") && !s.contacts.isEmpty)) ∧
      (codes.foldl (scanCode input) s).contacts = s.contacts := by
  induction codes with
  | nil => intro s; simp
  | cons ci rest ih =>
    intro s
    cases htr : codeTriggers input ci.1 with
    | false =>
      have hstep : scanCode input s ci = s := by
        simp [scanCode, htr]
      rw [List.foldl_cons, hstep]
      simpa [List.filter_cons, htr] using ih s
    | true =>
      have hstep : scanCode input s ci = handleEmergencyCode ci.2 s := by
        simp [scanCode, htr]
      obtain ⟨hm, ha, hc⟩ := ih (handleEmergencyCode ci.2 s)
      rw [List.foldl_cons, hstep]
      refine ⟨?_, ?_, ?_⟩
      · rw [hm, handleEmergencyCode_messages]
        simp [List.filter_cons, htr]
      · rw [ha, handleEmergencyCode_alert, handleEmergencyCode_contacts]
        simp only [List.filter_cons, htr, if_pos, List.any_cons]
        cases s.alertShown <;>
          cases hcrit : (ci.2.severity == "critical") <;>
            cases s.contacts.isEmpty <;> simp
      · rw [hc, handleEmergencyCode_contacts]

/-- C10: a non-blank chat message triggers the emergency handler exactly
for the codes occurring case-insensitively in its text, appending each
code's fixed mentor auto-response, and the emergency-contact alert branch
is taken only for a critical code — of which `Vou fazer um bolo` is the
only one — and only with a non-empty contact list. -/
theorem sendMessage_spec (input : String) (s : ChatState)
    (hne : trimmedEmpty input = false) :
    (sendMessage input s).messages =
      s.messages ++ [⟨input, "user"⟩] ++
        ((triggeredCodes input).map
          fun ci => (⟨ci.2.response, "mentor"⟩ : ChatMessage)) ∧
    (sendMessage input s).alertShown =
      (s.alertShown ||
        (((triggeredCodes input).any
          fun ci => ci.2.severity == "critical") && !s.contacts.isEmpty)) ∧
    (∀ ci ∈ emergencyCodes, ci.2.severity = "critical" →
      ci.1 = "Vou fazer um bolo") := by
  unfold sendMessage triggeredCodes
  rw [if_neg (by simp [hne])]
  obtain ⟨hm, ha, _⟩ := scan_foldl input emergencyCodes
    { s with messages := s.messages ++ [⟨input, "user"⟩] }
  refine ⟨?_, ?_, by decide⟩
  · rw [hm]
  · rw [ha]

set_option maxRecDepth 100000 in
/-- C10 witness: the uppercase accented message `RECEITA NÃO DEU CERTO`
is non-blank and triggers exactly the `Receita não deu certo` code via
Unicode case folding; the critical code still takes the alert branch
with one saved contact. -/
theorem sendMessage_spec_witness :
    trimmedEmpty "RECEITA NÃO DEU CERTO" = false ∧
    (triggeredCodes "RECEITA NÃO DEU CERTO").map (fun ci => ci.1) =
      ["Receita não deu certo"] ∧
    (sendMessage "Vou fazer um bolo"
      ⟨[], [⟨"1", "Ana", "6199", "high"⟩], false⟩).alertShown = true ∧
    ((sendMessage "RECEITA NÃO DEU CERTO"
        ⟨[], [⟨"1", "Ana", "6199", "high"⟩], false⟩).messages =
      [] ++ [⟨"RECEITA NÃO DEU CERTO", "user"⟩] ++
        ((triggeredCodes "RECEITA NÃO DEU CERTO").map
          fun ci => (⟨ci.2.response, "mentor"⟩ : ChatMessage)) ∧
    (sendMessage "RECEITA NÃO DEU CERTO"
        ⟨[], [⟨"1", "Ana", "6199", "high"⟩], false⟩).alertShown =
      (false ||
        (((triggeredCodes "RECEITA NÃO DEU CERTO").any
          fun ci => ci.2.severity == "critical") &&
          !([⟨"1", "Ana", "6199", "high"⟩] : List Contact).isEmpty)) ∧
    (∀ ci ∈ emergencyCodes, ci.2.severity = "critical" →
      ci.1 = "Vou fazer um bolo")) :=
  ⟨by decide, by decide, by decide,
   sendMessage_spec "RECEITA NÃO DEU CERTO"
     ⟨[], [⟨"1", "Ana", "6199", "high"⟩], false⟩ (by decide)⟩

end ToqueDeCasa
